import Mathlib

/-!
Verification development for the TradingView Pine Script downloader
(`tv_downloader_enhanced.py`).  The Python functions relevant to the
claims are shallowly embedded as executable Lean definitions: pure string
manipulation is translated directly, and the browser/page/clipboard I/O of
`extract_pine_source` is abstracted into an environment record that fixes
what each oracle call (navigation response, page text, per-attempt capture
channels, page-visible rendering) returns, so the control flow of the
Python code becomes a total Lean function of that environment.
-/

namespace TVDL

/-- Characters matched by Python's `str.strip()` / `str.isspace()` and by
the `re` module's `\s` class on `str` input (Unicode whitespace). -/
def isPySpace (c : Char) : Bool :=
  c = ' ' || c = '\t' || c = '\n' || c = '\x0d' || c = '\x0b' || c = '\x0c' ||
  c = '\x1c' || c = '\x1d' || c = '\x1e' || c = '\x1f' || c = '\x85' || c = '\xa0' ||
  c = '\u1680' || ('\u2000' ≤ c && c ≤ '\u200a') || c = '\u2028' || c = '\u2029' ||
  c = '\u202f' || c = '\u205f' || c = '\u3000'

/-- Python `s.strip()` on a character list: drop Unicode whitespace from
both ends. -/
def pyStripL (l : List Char) : List Char :=
  ((l.dropWhile isPySpace).reverse.dropWhile isPySpace).reverse

/-- Python `s.strip()` on a `String`. -/
def pyStripStr (s : String) : String :=
  ⟨pyStripL s.data⟩

/-- The character class removed by `sanitize_filename`'s first
substitution: `re.sub(r'[<>:"/\\|?*\[\]]', '', name)`. -/
def bannedFileChar (c : Char) : Bool :=
  c = '<' || c = '>' || c = ':' || c = '"' || c = '/' || c = '\\' ||
  c = '|' || c = '?' || c = '*' || c = '[' || c = ']'

/-- Worker for `re.sub(r'\s+', '_', name)`: the Bool records whether we are
inside a whitespace run that has already emitted its underscore. -/
def collapseWsAux : Bool → List Char → List Char
  | _, [] => []
  | inWs, c :: rest =>
    if isPySpace c then
      if inWs then collapseWsAux true rest
      else '_' :: collapseWsAux true rest
    else c :: collapseWsAux false rest

/-- Model of `re.sub(r'\s+', '_', name)`: every maximal whitespace run becomes one
underscore. -/
def collapseWs (l : List Char) : List Char :=
  collapseWsAux false l

/-- Python `name.strip('._')`: drop '.' and '_' from both ends. -/
def stripDotUnderscore (l : List Char) : List Char :=
  ((l.dropWhile (fun c => c = '.' || c = '_')).reverse.dropWhile
      (fun c => c = '.' || c = '_')).reverse

/-- Model of `sanitize_filename` from `tv_downloader_enhanced.py`:
strip illegal filename characters, collapse whitespace runs to `_`,
strip leading/trailing `.`/`_`, truncate to 200 characters, and fall back
to `"unnamed_script"` when the result would be empty. -/
def sanitize_filename (name : String) : String :=
  let s1 := name.data.filter (fun c => !bannedFileChar c)
  let s2 := collapseWs s1
  let s3 := stripDotUnderscore s2
  if s3.length > 200 then ⟨s3.take 200⟩
  else if s3 = [] then "unnamed_script" else ⟨s3⟩

/-- Python `s in t` (substring containment) on character lists. -/
def listHasSubstr (pat : List Char) : List Char → Bool
  | [] => pat.isEmpty
  | c :: rest => pat.isPrefixOf (c :: rest) || listHasSubstr pat rest

/-- Python `pat in s` on strings. -/
def strContains (s pat : String) : Bool :=
  listHasSubstr pat.data s.data

/-- ASCII model of JavaScript `toUpperCase` / Python `upper` (the marker
strings the scraper searches for are pure ASCII). -/
def strUpper (s : String) : String :=
  ⟨s.data.map Char.toUpper⟩

/-- ASCII model of JavaScript `toLowerCase` / Python `lower`. -/
def strLower (s : String) : String :=
  ⟨s.data.map Char.toLower⟩

/-- Python `s.replace(old, new)` for a single-character `old`: replaces
every occurrence (a plain map). -/
def rep1 (a b : Char) (l : List Char) : List Char :=
  l.map (fun c => if c = a then b else c)

/-- Python `s.replace(old, new)` for a two-character `old`: left-to-right,
non-overlapping. -/
def rep2 (a₁ a₂ : Char) (bs : List Char) : List Char → List Char
  | [] => []
  | [c] => [c]
  | c :: d :: rest =>
    if c = a₁ ∧ d = a₂ then bs ++ rep2 a₁ a₂ bs rest
    else c :: rep2 a₁ a₂ bs (d :: rest)

/-- Model of `source.replace('\r\n', '\n').replace('\r', '\n')` — the line-ending
unification step of `_normalize_source`. -/
def lfNormalize (s : String) : String :=
  ⟨rep1 '\x0d' '\n' (rep2 '\x0d' '\n' ['\n'] s.data)⟩

/-- The escape-marker test of `_normalize_source`:
`'\\n' in source or '\\t' in source or '\\u' in source`
(two-character backslash sequences). -/
def containsEscapeMarker (s : String) : Bool :=
  strContains s "\\n" || strContains s "\\t" || strContains s "\\u"

def hexDigit (c : Char) : Option Nat :=
  if '0' ≤ c ∧ c ≤ '9' then some (c.toNat - 48)
  else if 'a' ≤ c ∧ c ≤ 'f' then some (c.toNat - 87)
  else if 'A' ≤ c ∧ c ≤ 'F' then some (c.toNat - 55)
  else none

def isOctDigit (c : Char) : Bool :=
  '0' ≤ c && c ≤ '7'

def octVal (c : Char) : Nat :=
  c.toNat - 48

/-- Build a `Char` from a code point, failing on values Lean's `Char`
cannot represent (surrogates / out of range).  Python's `str` can hold
lone surrogates, so a `\uD800`-style escape decodes in Python but is
treated as a decode failure here; none of the claims depend on that
corner. -/
def mkCharOpt (n : Nat) : Option Char :=
  if h : n.isValidChar then some (Char.ofNatAux n h) else none

/-- Decoder for Python's `unicode_escape` codec on latin-1 input
(`codecs.decode(source, 'unicode_escape')`), returning `none` where the
codec raises.  `\N{NAME}` escapes (a lookup in the Unicode name database)
are modelled as a decode failure.  The `Nat` argument is structural fuel:
every step consumes at least one character, so `decUE` passes
`length + 1` and the `0` case is unreachable. -/
def decUEF : Nat → List Char → Option (List Char)
  | 0, _ => none
  | _ + 1, [] => some []
  | _ + 1, ['\\'] => none
  | fuel + 1, '\\' :: c :: r =>
    if c = '\n' then decUEF fuel r
    else if c = '\\' then (decUEF fuel r).map (fun l => '\\' :: l)
    else if c = '\x27' then (decUEF fuel r).map (fun l => '\x27' :: l)
    else if c = '"' then (decUEF fuel r).map (fun l => '"' :: l)
    else if c = 'a' then (decUEF fuel r).map (fun l => '\x07' :: l)
    else if c = 'b' then (decUEF fuel r).map (fun l => '\x08' :: l)
    else if c = 'f' then (decUEF fuel r).map (fun l => '\x0c' :: l)
    else if c = 'n' then (decUEF fuel r).map (fun l => '\n' :: l)
    else if c = 'r' then (decUEF fuel r).map (fun l => '\x0d' :: l)
    else if c = 't' then (decUEF fuel r).map (fun l => '\t' :: l)
    else if c = 'v' then (decUEF fuel r).map (fun l => '\x0b' :: l)
    else if isOctDigit c then
      match r with
      | d₂ :: r₂ =>
        if isOctDigit d₂ then
          match r₂ with
          | d₃ :: r₃ =>
            if isOctDigit d₃ then
              (decUEF fuel r₃).map (fun l =>
                Char.ofNat (64 * octVal c + 8 * octVal d₂ + octVal d₃) :: l)
            else (decUEF fuel r₂).map (fun l => Char.ofNat (8 * octVal c + octVal d₂) :: l)
          | [] => (decUEF fuel r₂).map (fun l => Char.ofNat (8 * octVal c + octVal d₂) :: l)
        else (decUEF fuel r).map (fun l => Char.ofNat (octVal c) :: l)
      | [] => (decUEF fuel r).map (fun l => Char.ofNat (octVal c) :: l)
    else if c = 'x' then
      match r with
      | h₁ :: h₂ :: r₂ =>
        match hexDigit h₁, hexDigit h₂ with
        | some v₁, some v₂ => (decUEF fuel r₂).map (fun l => Char.ofNat (16 * v₁ + v₂) :: l)
        | _, _ => none
      | _ => none
    else if c = 'u' then
      match r with
      | h₁ :: h₂ :: h₃ :: h₄ :: r₂ =>
        match hexDigit h₁, hexDigit h₂, hexDigit h₃, hexDigit h₄ with
        | some v₁, some v₂, some v₃, some v₄ =>
          match mkCharOpt (4096 * v₁ + 256 * v₂ + 16 * v₃ + v₄) with
          | some ch => (decUEF fuel r₂).map (fun l => ch :: l)
          | none => none
        | _, _, _, _ => none
      | _ => none
    else if c = 'U' then
      match r with
      | h₁ :: h₂ :: h₃ :: h₄ :: h₅ :: h₆ :: h₇ :: h₈ :: r₂ =>
        match hexDigit h₁, hexDigit h₂, hexDigit h₃, hexDigit h₄,
              hexDigit h₅, hexDigit h₆, hexDigit h₇, hexDigit h₈ with
        | some v₁, some v₂, some v₃, some v₄, some v₅, some v₆, some v₇, some v₈ =>
          match mkCharOpt (268435456 * v₁ + 16777216 * v₂ + 1048576 * v₃ +
              65536 * v₄ + 4096 * v₅ + 256 * v₆ + 16 * v₇ + v₈) with
          | some ch => (decUEF fuel r₂).map (fun l => ch :: l)
          | none => none
        | _, _, _, _, _, _, _, _ => none
      | _ => none
    else if c = 'N' then none
    else (decUEF fuel r).map (fun l => '\\' :: c :: l)
  | fuel + 1, c :: rest => (decUEF fuel rest).map (fun l => c :: l)

/-- The unicode-escape decode of a whole character list. -/
def decUE (l : List Char) : Option (List Char) :=
  decUEF (l.length + 1) l

/-- The `except` branch of `_normalize_source`'s unescape attempt:
`source.replace('\\n','\n').replace('\\r','\r').replace('\\t','\t')`
then `source.replace('\"', '"').replace(r'\/', '/')`.  Note the fourth
replacement's pattern `'\"'` is just `'"'` in Python source, so it is the
identity substitution on the quote character, translated as written. -/
def normFallback (s : String) : String :=
  let l₁ := rep2 '\\' 'n' ['\n'] s.data
  let l₂ := rep2 '\\' 'r' ['\x0d'] l₁
  let l₃ := rep2 '\\' 't' ['\t'] l₂
  let l₄ := rep1 '"' '"' l₃
  ⟨rep2 '\\' '/' ['/'] l₄⟩

/-- Model of `codecs.decode(source, 'unicode_escape')` wrapped in the
`try/except` of `_normalize_source`: on `str` input the codec first
latin-1-encodes (failing on characters above U+00FF), and any codec error
falls back to `normFallback`. -/
def unescapeOrFallback (s : String) : String :=
  if s.data.all (fun c => c.toNat < 256) then
    match decUE s.data with
    | some out => ⟨out⟩
    | none => normFallback s
  else normFallback s

/-- Model of `_normalize_source` from `tv_downloader_enhanced.py`: unescape when an
escape marker is present, then unify line endings.  (The `isinstance`
guard is vacuous for `String` input; `if not source: return source or ''`
is the empty-string early return.) -/
def normalize_source (s : String) : String :=
  if s = "" then ""
  else
    let s₁ := if containsEscapeMarker s then unescapeOrFallback s else s
    lfNormalize s₁

/-- Worker for `extract_script_id`: the regex search for the literal `/script/`
followed by a captured group of one or more characters that are neither
a dash nor a slash — the scan finds the first position where the literal
is followed by at least one such character; the captured group is that
maximal run. -/
def scriptIdScan : List Char → String
  | [] => ""
  | c :: rest =>
    if ("/script/".data).isPrefixOf (c :: rest) then
      let g := ((c :: rest).drop 8).takeWhile (fun ch => !(ch = '-' || ch = '/'))
      if g = [] then scriptIdScan rest else ⟨g⟩
    else scriptIdScan rest

/-- Model of `extract_script_id` from `tv_downloader_enhanced.py`. -/
def extract_script_id (url : String) : String :=
  scriptIdScan url.data

/-- Model of `a.strip()[:200]` — the snippet taken by `_snippet_matches`. -/
def snippetOf (s : String) : List Char :=
  (pyStripL s.data).take 200

/-- Model of `_snippet_matches(a, b)` from `extract_pine_source`: vacuously true
when either side is empty or the first snippet is blank; otherwise the
first 200 stripped characters of one side must occur inside the other
full text. -/
def snippetMatches (a b : String) : Bool :=
  if a = "" || b = "" then true
  else if snippetOf a = [] then true
  else listHasSubstr (snippetOf a) b.data || listHasSubstr (snippetOf b) a.data

/-- The page-classification triple computed by the in-page script of
`extract_pine_source` (open-source / invite-only / protected markers). -/
structure ScriptTypeFlags where
  isOpenSource : Bool
  isInviteOnly : Bool
  isProtectedScript : Bool
deriving DecidableEq

/-- The classification script: explicit OPEN-SOURCE indicator, overridden
by `invite-only` or `protected script` occurring in the lower-cased page
text. -/
def classifyScriptType (pageText : String) : ScriptTypeFlags :=
  let pageUpper := strUpper pageText
  let isOpen := strContains pageUpper "OPEN-SOURCE SCRIPT" ||
      strContains pageUpper "OPEN-SOURCE" || strContains pageText "Open-source script"
  let inv := strContains (strLower pageText) "invite-only"
  let prot := strContains (strLower pageText) "protected script"
  { isOpenSource := isOpen && !inv && !prot, isInviteOnly := inv, isProtectedScript := prot }

/-- The oracle values consumed by one iteration of the capture loop of
`extract_pine_source`: the combined capture-channel result (positional
click then selector-based copy-button extraction), the page-visible
rendering `_try_source_tab_extraction` returns for the cross-check (its
exceptions yield `''`), and what a positional click during this
attempt's recovery block would capture. -/
structure AttemptEnv where
  capture : String
  visible : String
  recoveryCapture : String
deriving DecidableEq

/-- The oracle values consumed by one call of `extract_pine_source`:
navigation outcome (`page.goto` raising a timeout, returning no response,
or a status code), the page body text used for classification, and the
three capture attempts.  Metadata extraction (title/author/date) does not
interact with the claims and is not modelled. -/
structure ExtractEnv where
  navTimeout : Bool
  navResponse : Option Nat
  pageText : String
  att1 : AttemptEnv
  att2 : AttemptEnv
  att3 : AttemptEnv
  positionalClick : Bool
deriving DecidableEq

/-- The attempt environment consulted on loop iteration `i` (0-based). -/
def attOf (env : ExtractEnv) : Nat → AttemptEnv
  | 0 => env.att1
  | 1 => env.att2
  | _ => env.att3

/-- The `result` dict built by `extract_pine_source`.  Keys that the
Python code only sets on some paths are `Option`s (absent = `none`, as
read back by `dict.get`). -/
structure ExtractResult where
  url : String
  script_id : String
  source_code : String := ""
  version : String := ""
  is_strategy : Bool := false
  is_library : Bool := false
  is_protected : Bool := false
  source_origin : Option String := none
  source_raw : Option String := none
  error : Option String := none
deriving DecidableEq

/-- The run-wide clipboard-fingerprint registry
`self._seen_clipboard_hashes` (`sha256 hexdigest -> first owner url`),
as an association list; assignment prepends, lookup takes the first
binding. -/
abbrev Registry := List (String × String)

def regLookup : Registry → String → Option String
  | [], _ => none
  | (k, v) :: rest, h => if k = h then some v else regLookup rest h

/-- How one loop iteration classifies its capture. -/
inductive AttemptOutcome
  | emptyCapture
  | staleSnippet (captured : String)
  | staleDup (captured : String) (owner : String)
  | accepted (captured : String)
deriving DecidableEq

/-- Result of one loop iteration: `brk` models the Python `break` with the
accepted text, `cont` models falling through to the next attempt. -/
inductive StepRes
  | brk (text : String) (reg : Registry) (res : ExtractResult)
  | cont (reg : Registry) (res : ExtractResult) (o : AttemptOutcome)

/-- One iteration of the `for attempt in range(1, max_retries + 1)` loop
of `extract_pine_source` (the capture and validation part; the
attempt-number-specific recovery is handled by `extractLoop`).  The
`fingerprint` parameter models `hashlib.sha256(...).hexdigest()`; every
claim about the registry holds for an arbitrary fingerprint function.
Note that `source_origin`/`source_raw` are recorded on the result as soon
as the capture is non-empty, before either validation check. -/
def attemptStep (fingerprint : String → String) (url : String) (ae : AttemptEnv)
    (reg : Registry) (res : ExtractResult) : StepRes :=
  let c := ae.capture
  if c = "" then .cont reg res .emptyCapture
  else
    let res₁ := { res with source_origin := some "clipboard", source_raw := some c }
    if snippetMatches ae.visible c = false then
      .cont reg { res₁ with error := some "stale_clipboard" } (.staleSnippet c)
    else
      let h := fingerprint c
      match regLookup reg h with
      | some owner =>
        if owner ≠ "" ∧ owner ≠ url then
          .cont reg { res₁ with error := some "stale_clipboard" } (.staleDup c owner)
        else if owner = "" then .brk c ((h, url) :: reg) res₁
        else .brk c reg res₁
      | none => .brk c ((h, url) :: reg) res₁

/-- Output of the three-attempt loop: final result dict, registry, the
loop variable `source_code` after the loop, one outcome per executed
iteration, and how many extra navigations the recovery ladder performed. -/
structure LoopOut where
  res : ExtractResult
  reg : Registry
  finalText : String
  trace : List AttemptOutcome
  extraNav : Nat

/-- The `max_retries = 3` capture loop.  A `stale` iteration `continue`s
past the recovery block; an empty capture on attempt 2 runs the overlay /
source-tab recovery (whose positional capture is overwritten when attempt
3 resets `source_code`), and an empty capture on attempt 3 restarts the
browser, re-navigates, and (in positional mode) may leave a captured text
in `source_code` that survives the loop without validation. -/
def extractLoop (fingerprint : String → String) (url : String) (env : ExtractEnv)
    (reg₀ : Registry) (res₀ : ExtractResult) : LoopOut :=
  match attemptStep fingerprint url env.att1 reg₀ res₀ with
  | .brk c reg₁ res₁ => ⟨res₁, reg₁, c, [.accepted c], 0⟩
  | .cont reg₁ res₁ o₁ =>
    match attemptStep fingerprint url env.att2 reg₁ res₁ with
    | .brk c reg₂ res₂ => ⟨res₂, reg₂, c, [o₁, .accepted c], 0⟩
    | .cont reg₂ res₂ o₂ =>
      match attemptStep fingerprint url env.att3 reg₂ res₂ with
      | .brk c reg₃ res₃ => ⟨res₃, reg₃, c, [o₁, o₂, .accepted c], 0⟩
      | .cont reg₃ res₃ o₃ =>
        let sc := match o₃ with
          | .emptyCapture =>
            if env.positionalClick ∧ env.att3.recoveryCapture ≠ "" then
              env.att3.recoveryCapture else ""
          | _ => ""
        let en := match o₃ with
          | .emptyCapture => 1
          | _ => 0
        ⟨res₃, reg₃, sc, [o₁, o₂, o₃], en⟩

/-- The success epilogue of `extract_pine_source`: normalize, strip, and
derive the script kind.  The version regex `//@version=(\d+)` is computed
by the Python code at this point but its match is never stored, so the
`version` field keeps its initial `''`. -/
def successResult (lo : LoopOut) : ExtractResult :=
  let sc := pyStripStr (normalize_source lo.finalText)
  let rawToCheck := if sc ≠ "" then sc else lo.res.source_raw.getD ""
  let low := strLower rawToCheck
  { lo.res with
    source_code := sc,
    is_library := strContains low "library(" || strContains low "\nlibrary(" ||
      strContains low " library ",
    is_strategy := strContains low "strategy(" }

/-- The outcome of one `extract_pine_source` call: the result dict, the
updated fingerprint registry, the per-attempt trace (one entry per
executed capture attempt) and the number of navigations performed. -/
structure ExtractOut where
  result : ExtractResult
  registry : Registry
  trace : List AttemptOutcome
  navCount : Nat

/-- Model of `extract_pine_source` from `tv_downloader_enhanced.py`, as a function
of the oracle environment: navigation failure and non-open classification
return before any capture attempt; otherwise the three-attempt capture
loop runs and the epilogue fires. -/
def extractPineSource (fingerprint : String → String) (env : ExtractEnv)
    (url : String) (reg₀ : Registry) : ExtractOut :=
  let res₀ : ExtractResult := { url := url, script_id := extract_script_id url }
  if env.navTimeout then ⟨{ res₀ with error := some "Timeout" }, reg₀, [], 1⟩
  else
    match env.navResponse with
    | none => ⟨{ res₀ with error := some "HTTP No response" }, reg₀, [], 1⟩
    | some status =>
      if 400 ≤ status then
        ⟨{ res₀ with error := some ("HTTP " ++ toString status) }, reg₀, [], 1⟩
      else
        let ty := classifyScriptType env.pageText
        if ty.isOpenSource = false then
          ⟨{ res₀ with
              is_protected := true,
              error := some (if ty.isInviteOnly then "invite-only"
                else if ty.isProtectedScript then "protected"
                else "not open-source") }, reg₀, [], 1⟩
        else
          let lo := extractLoop fingerprint url env reg₀ res₀
          ⟨if lo.finalText = "" then { lo.res with error := some "clipboard_extraction_failed" }
            else successResult lo,
           lo.reg, lo.trace, 1 + lo.extraNav⟩

/-- The concrete end-to-end capture of the specification's scenario:
the in-page buffer returns a version-5 indicator source. -/
def c6Text : String := "//@version=5\nindicator(\"X\")\nplot(close)"

def c6Env : ExtractEnv :=
  { navTimeout := false, navResponse := some 200,
    pageText := "Open-source script",
    att1 := ⟨c6Text, "", ""⟩, att2 := ⟨"", "", ""⟩, att3 := ⟨"", "", ""⟩,
    positionalClick := false }

/-- Environment for the C2 witness: the clipboard returns text unrelated
to the page-visible source. -/
def c2WitnessEnv : ExtractEnv :=
  { navTimeout := false, navResponse := some 200,
    pageText := "Open-source script",
    att1 := ⟨"BBBB", "AAAA", ""⟩, att2 := ⟨"", "", ""⟩, att3 := ⟨"", "", ""⟩,
    positionalClick := false }

/-- The line boundaries recognized by Python `str.splitlines`. -/
def isLineBreakChar (c : Char) : Bool :=
  c = '\n' || c = '\x0d' || c = '\x0b' || c = '\x0c' || c = '\x1c' || c = '\x1d' ||
  c = '\x1e' || c = '\x85' || c = ' ' || c = ' '

/-- Worker for Python `str.splitlines` (accumulator holds the current
line reversed); `\r\n` counts as a single boundary, and a final line
without a terminator is kept. -/
def splitLinesAux : List Char → List Char → List String
  | [], acc => if acc = [] then [] else [⟨acc.reverse⟩]
  | '\x0d' :: '\n' :: rest, acc => ⟨acc.reverse⟩ :: splitLinesAux rest []
  | c :: rest, acc =>
    if isLineBreakChar c then ⟨acc.reverse⟩ :: splitLinesAux rest []
    else splitLinesAux rest (c :: acc)

/-- Python `s.splitlines()`. -/
def pySplitlines (s : String) : List String :=
  splitLinesAux s.data []

/-- The header-detection loop of the post-write verification in `main`:
`for i, ln in enumerate(lines[:40])`, breaking with `header_end = i` at
the first line that is neither a `//` comment nor blank, and otherwise
leaving `header_end = i + 1`. -/
def headerEndLoop : List String → Nat → Nat
  | [], i => i
  | ln :: rest, i =>
    if ("//".data.isPrefixOf (pyStripL ln.data)) = false ∧ pyStripL ln.data ≠ [] then i
    else headerEndLoop rest (i + 1)

/-- The fields of the `result` dict consumed by `save_script`'s
clipboard branch (`source_origin == 'clipboard' and source_raw` is the
branch's guard, so `raw` is the non-empty captured text);
`downloadedAt` stands for `datetime.now().isoformat()`. -/
structure SaveInput where
  title : String
  script_id : String
  author : String
  url : String
  published : String
  downloadedAt : String
  version : String
  tags : List String
  boosts : Nat
  source_code : String
  raw : String
  is_library : Bool
  is_strategy : Bool
deriving DecidableEq

/-- The `Type:` label derivation of `save_script` (flags plus marker scan
over source_code and source_raw combined). -/
def typeLabelOf (r : SaveInput) : String :=
  let low := strLower (r.source_code ++ "\n" ++ r.raw)
  if r.is_library = true ∨ strContains low "library(" = true ∨
      strContains low "@library" = true then "Library"
  else if r.is_strategy = true ∨ strContains low "strategy(" = true then "Strategy"
  else "Indicator"

/-- The metadata header lines built by `save_script`, ending with `"//"`
and an empty string so the joined header terminates in `//\n`. -/
def headerLines (r : SaveInput) : List String :=
  ["// Title: " ++ r.title,
   "// Script ID: " ++ r.script_id,
   "// Author: " ++ r.author,
   "// URL: " ++ r.url,
   "// Published: " ++ r.published,
   "// Downloaded: " ++ r.downloadedAt,
   "// Pine Version: " ++ r.version,
   "// Type: " ++ typeLabelOf r,
   "// Boosts: " ++ toString r.boosts,
   "// Tags: " ++ String.intercalate ", " r.tags,
   "//",
   ""]

/-- The clipboard branch of `save_script`: write
`'\n'.join(header)` followed by the normalized raw payload. -/
def saveClipboard (r : SaveInput) : String :=
  String.intercalate "\n" (headerLines r) ++ normalize_source r.raw

/-- The `header_text` computed by the mismatch branch of the post-write
verification in `main`: the joined `lines[:header_end]` plus a newline,
or `''` when `header_end` is `0`. -/
def rewriteHeaderText (r : SaveInput) : String :=
  let lines := pySplitlines (saveClipboard r)
  let he := headerEndLoop (lines.take 40) 0
  if he = 0 then "" else String.intercalate "\n" (lines.take he) ++ "\n"

/-- Model of `raw_bytes.lstrip(b'\n')`. -/
def dropLeadingLF (s : String) : String :=
  ⟨s.data.dropWhile (fun c => c = '\n')⟩

/-- The save-plus-verification pipeline of `main` for an accepted
clipboard capture: write via `save_script`, re-read, and on a byte
mismatch with the raw capture rewrite the file as the preserved header
text followed by the raw bytes stripped of leading newlines. -/
def savePlusVerify (r : SaveInput) : String :=
  let written := saveClipboard r
  if written = r.raw then written
  else rewriteHeaderText r ++ dropLeadingLF r.raw

/-- The payload portion of the final file: the bytes after the comment
header the rewrite preserved. -/
def payloadAfterHeader (r : SaveInput) : String :=
  ⟨(savePlusVerify r).data.drop (rewriteHeaderText r).data.length⟩

/-- The concrete C4 counterexample input: an accepted clipboard capture
whose raw text begins with a newline. -/
def c4Input : SaveInput :=
  { title := "T", script_id := "abc", author := "a", url := "u", published := "",
    downloadedAt := "2026-01-01T00:00:00", version := "", tags := [], boosts := 0,
    source_code := "plot(close)", raw := "\nplot(close)",
    is_library := false, is_strategy := false }

/-- Witness for C4's amended claim: a raw capture without a leading
newline round-trips exactly. -/
def c4WitnessInput : SaveInput :=
  { title := "T", script_id := "abc", author := "a", url := "u", published := "",
    downloadedAt := "2026-01-01T00:00:00", version := "", tags := [], boosts := 0,
    source_code := "plot(close)", raw := "plot(close)",
    is_library := false, is_strategy := false }

/-- A Target from the listing: URL plus optional title. -/
structure Target where
  url : String
  title : String
deriving DecidableEq

/-- One `.meta.json` sidecar as read by `_scan_existing_scripts`; an
empty string models a missing/falsy key (`data.get(...)`). -/
structure MetaSidecar where
  url : String
  script_id : String
deriving DecidableEq

/-- One `.pine` file as read by `_scan_existing_scripts`: its filename
and its lines (the scan reads at most the first 40). -/
structure PineFile where
  name : String
  lines : List String
deriving DecidableEq

/-- The persisted outputs visible to `_scan_existing_scripts` (entries
under ignored directories are assumed already excluded). -/
structure OutputScan where
  metas : List MetaSidecar
  pines : List PineFile
deriving DecidableEq

/-- Python `sid.split('-')[0]`. -/
def dashHead (s : String) : String :=
  ⟨s.data.takeWhile (fun c => !(c = '-'))⟩

/-- The identifiers contributed by one sidecar: the url when truthy, and
the stripped script id plus its dash-head when truthy. -/
def metaFound (m : MetaSidecar) : List String :=
  (if m.url ≠ "" then [m.url] else []) ++
  (if m.script_id ≠ "" then [pyStripStr m.script_id, dashHead (pyStripStr m.script_id)]
   else [])

def isAlnumAscii (c : Char) : Bool :=
  ('A' ≤ c && c ≤ 'Z') || ('a' ≤ c && c ≤ 'z') || ('0' ≤ c && c ≤ '9')

/-- The filename pattern match of the scan: one or more leading
alphanumerics followed by an underscore (greedy run, then the mandatory
underscore). -/
def fnameIdMatch (name : String) : List String :=
  let k := name.data.takeWhile isAlnumAscii
  if k ≠ [] ∧ (name.data.drop k.length).head? = some '_' then [⟨k⟩] else []

/-- Anchored match of a header line against optional whitespace, `//`,
optional whitespace, the given literal tag, optional whitespace, and a
non-empty run of non-whitespace characters (the captured group). -/
def parseTagLine (tag : List Char) (ln : String) : Option String :=
  let l₁ := ln.data.dropWhile isPySpace
  if ("//".data).isPrefixOf l₁ then
    let l₂ := (l₁.drop 2).dropWhile isPySpace
    if tag.isPrefixOf l₂ then
      let l₃ := (l₂.drop tag.length).dropWhile isPySpace
      let g := l₃.takeWhile (fun c => !isPySpace c)
      if g = [] then none else some ⟨g⟩
    else none
  else none

/-- The header scan of one `.pine` file: stop at the first line carrying
either a `// URL:` value (added as-is) or a `// Script ID:` value (added
with its dash-head). -/
def headerScan : List String → List String
  | [] => []
  | ln :: rest =>
    match parseTagLine ("URL:".data) ln with
    | some u => [u]
    | none =>
      match parseTagLine ("Script ID:".data) ln with
      | some sid => [sid, dashHead sid]
      | none => headerScan rest

/-- The identifiers contributed by one `.pine` file. -/
def pineFound (p : PineFile) : List String :=
  fnameIdMatch p.name ++ headerScan (p.lines.take 40)

/-- Model of `_scan_existing_scripts`: the set of URLs / script ids reconstructed
from sidecars, filenames and headers. -/
def scanExistingScripts (scan : OutputScan) : List String :=
  (scan.metas.map metaFound).join ++ (scan.pines.map pineFound).join

/-- The worklist filter of `download_all` with resume enabled:
`[s for s in scripts if s['url'] not in completed]` — membership is
tested on the URL only. -/
def downloadWorklist (scripts : List Target) (completed : List String) : List Target :=
  scripts.filter (fun s => !(completed.contains s.url))

/-- Modelled from the spec's data model: a Target is *present in the
Resumability Index* when the index holds its URL or its stable script
identifier.  (This is the claim's notion of presence; the code's filter
is `downloadWorklist`.) -/
def specTargetInIndex (idx : List String) (t : Target) : Prop :=
  t.url ∈ idx ∨ extract_script_id t.url ∈ idx

/-- The persisted outputs of the C9 counterexample: a single raw-clipboard
`.pine` file whose name carries the script id but whose content has no
URL/Script ID header, and no sidecar. -/
def c9Scan : OutputScan :=
  { metas := [], pines := [{ name := "abc123_My_Script.pine", lines := ["plot(close)"] }] }

def c9Target : Target :=
  { url := "https://www.tradingview.com/script/abc123-my-script/", title := "My Script" }

/-- One batch item of `download_all`: the target URL and the oracle
environment of each of the up-to-3 per-target extract calls. -/
structure TargetRun where
  url : String
  envs : List ExtractEnv
deriving DecidableEq

/-- The per-target attempt loop of `download_all`: call
`extract_pine_source`; persist (via `save_script`) whenever the result
carries `source_origin == 'clipboard'` and a truthy `source_raw`; stop on
the protected/invite-only/not-open classifications; otherwise retry with
the next call's oracle.  Returns the persisted `(url, raw)` if any, plus
the threaded fingerprint registry. -/
def runTargetAttempts (fingerprint : String → String) (url : String) :
    List ExtractEnv → Registry → Option (String × String) × Registry
  | [], reg => (none, reg)
  | env :: rest, reg =>
    let out := extractPineSource fingerprint env url reg
    if out.result.source_origin = some "clipboard" ∧ out.result.source_raw.getD "" ≠ "" then
      (some (url, out.result.source_raw.getD ""), out.registry)
    else if out.result.error = some "invite-only" ∨ out.result.error = some "protected" ∨
        out.result.error = some "not open-source" then
      (none, out.registry)
    else runTargetAttempts fingerprint url rest out.registry

/-- The batch loop of `download_all` over the worklist, returning the
`(url, raw payload)` pairs persisted by `save_script`, threading the
process-wide fingerprint registry between targets. -/
def downloadBatchPersisted (fingerprint : String → String) :
    List TargetRun → Registry → List (String × String)
  | [], _ => []
  | t :: rest, reg =>
    match runTargetAttempts fingerprint t.url t.envs reg with
    | (some pr, reg') => pr :: downloadBatchPersisted fingerprint rest reg'
    | (none, reg') => downloadBatchPersisted fingerprint rest reg'

/-- The clipboard text both targets of the C1 failing input capture. -/
def c1Text : String := "//@version=5\nplot(close)"

def c1UrlA : String := "https://example.test/script/aaa111/"

def c1UrlB : String := "https://example.test/script/bbb222/"

/-- Target A's oracle: first capture returns `c1Text`, page-visible
rendering unavailable (empty). -/
def c1EnvA : ExtractEnv :=
  { navTimeout := false, navResponse := some 200,
    pageText := "Open-source script",
    att1 := ⟨c1Text, "", ""⟩, att2 := ⟨"", "", ""⟩, att3 := ⟨"", "", ""⟩,
    positionalClick := false }

/-- Target B's oracle: the stale clipboard returns the same `c1Text` on
every attempt, page-visible rendering unavailable. -/
def c1EnvB : ExtractEnv :=
  { navTimeout := false, navResponse := some 200,
    pageText := "Open-source script",
    att1 := ⟨c1Text, "", ""⟩, att2 := ⟨c1Text, "", ""⟩, att3 := ⟨c1Text, "", ""⟩,
    positionalClick := false }

def c1Batch : List TargetRun :=
  [⟨c1UrlA, [c1EnvA]⟩, ⟨c1UrlB, [c1EnvB]⟩]

theorem collapseWsAux_mem (b : Bool) (l : List Char) :
    ∀ c ∈ collapseWsAux b l, (c = '_' ∨ c ∈ l) ∧ isPySpace c = false := by
  induction l generalizing b with
  | nil => intro c hc; simp [collapseWsAux] at hc
  | cons d rest ih =>
    intro c hc
    by_cases hd : isPySpace d = true
    · cases b with
      | true =>
        simp [collapseWsAux, hd] at hc
        rcases ih true c hc with ⟨h1, h2⟩
        exact ⟨h1.imp id (List.mem_cons_of_mem d), h2⟩
      | false =>
        simp [collapseWsAux, hd] at hc
        rcases hc with h | h
        · subst h; exact ⟨Or.inl rfl, by decide⟩
        · rcases ih true c h with ⟨h1, h2⟩
          exact ⟨h1.imp id (List.mem_cons_of_mem d), h2⟩
    · simp only [Bool.not_eq_true] at hd
      simp [collapseWsAux, hd] at hc
      rcases hc with h | h
      · exact ⟨Or.inr (h ▸ List.mem_cons_self d rest), h ▸ hd⟩
      · rcases ih false c h with ⟨h1, h2⟩
        exact ⟨h1.imp id (List.mem_cons_of_mem d), h2⟩

theorem stripDotUnderscore_sublist (l : List Char) :
    ∀ c ∈ stripDotUnderscore l, c ∈ l := by
  intro c hc
  unfold stripDotUnderscore at hc
  rw [List.mem_reverse] at hc
  have h1 := (List.dropWhile_sublist (l := (l.dropWhile
      (fun c => c = '.' || c = '_')).reverse)
      (p := fun c => c = '.' || c = '_')).mem hc
  rw [List.mem_reverse] at h1
  exact (List.dropWhile_sublist (l := l) (p := fun c => c = '.' || c = '_')).mem h1

/-- C10: for every input string, `sanitize_filename` returns a non-empty
string of length at most 200 containing no reserved filename characters
and no whitespace; when the sanitized text would otherwise be empty, the
fixed fallback `"unnamed_script"` is returned. -/
theorem c10_sanitize_filename_safe (name : String) :
    sanitize_filename name ≠ "" ∧
    (sanitize_filename name).length ≤ 200 ∧
    (∀ c ∈ (sanitize_filename name).data,
        bannedFileChar c = false ∧ isPySpace c = false) ∧
    (stripDotUnderscore (collapseWs (name.data.filter (fun c => !bannedFileChar c))) = [] →
      sanitize_filename name = "unnamed_script") := by
  have hchar : ∀ c ∈ stripDotUnderscore
      (collapseWs (name.data.filter (fun c => !bannedFileChar c))),
      bannedFileChar c = false ∧ isPySpace c = false := by
    intro c hc
    have hc2 := stripDotUnderscore_sublist _ c hc
    rcases collapseWsAux_mem false _ c hc2 with ⟨h1, h2⟩
    refine ⟨?_, h2⟩
    rcases h1 with h | h
    · subst h; decide
    · have := List.of_mem_filter h
      simpa using this
  unfold sanitize_filename
  set s3 := stripDotUnderscore
      (collapseWs (name.data.filter (fun c => !bannedFileChar c))) with hs3
  by_cases hlen : s3.length > 200
  · rw [if_pos hlen]
    refine ⟨?_, ?_, ?_, ?_⟩
    · intro h
      have hd : (String.mk (s3.take 200)).data = [] := by rw [h]
      simp only [List.take_eq_nil_iff] at hd
      rcases hd with h2 | h2
      · omega
      · rw [h2] at hlen; simp at hlen
    · show (s3.take 200).length ≤ 200
      simp [List.length_take]
    · intro c hc
      exact hchar c ((List.take_sublist 200 s3).mem hc)
    · intro h; rw [h] at hlen; simp at hlen
  · rw [if_neg hlen]
    by_cases hnil : s3 = []
    · rw [if_pos hnil]
      refine ⟨by decide, by decide, ?_, fun _ => rfl⟩
      intro c hc
      fin_cases hc <;> exact ⟨by decide, by decide⟩
    · rw [if_neg hnil]
      refine ⟨?_, ?_, hchar, fun h => absurd h hnil⟩
      · intro h
        have hd : (String.mk s3).data = [] := by rw [h]
        exact hnil hd
      · show s3.length ≤ 200
        omega

/-- Witness for C10 at concrete inputs: a name that sanitizes to the
fallback, and a name with whitespace and banned characters. -/
theorem c10_sanitize_filename_safe_witness :
    sanitize_filename "[]" = "unnamed_script" ∧
    sanitize_filename "a b<c" ≠ "" := by
  refine ⟨(c10_sanitize_filename_safe "[]").2.2.2 (by decide),
          (c10_sanitize_filename_safe "a b<c").1⟩

theorem rep2_id (a₁ a₂ : Char) (bs : List Char) :
    ∀ l : List Char, a₁ ∉ l → rep2 a₁ a₂ bs l = l
  | [], _ => rfl
  | [_], _ => rfl
  | c :: d :: rest, h => by
    have hc : ¬ (c = a₁) := fun he => h (by simp [he])
    simp only [rep2]
    rw [if_neg (fun hp => hc hp.1)]
    exact congrArg (c :: ·)
      (rep2_id a₁ a₂ bs (d :: rest) (fun hm => h (List.mem_cons_of_mem _ hm)))

theorem rep1_id (a b : Char) (l : List Char) (h : a ∉ l) : rep1 a b l = l := by
  induction l with
  | nil => rfl
  | cons c rest ih =>
    have hc : ¬ (c = a) := fun he => h (by simp [he])
    simp only [rep1, List.map_cons, if_neg hc]
    exact congrArg (c :: ·) (ih (fun hm => h (List.mem_cons_of_mem _ hm)))

/-- C8: `_normalize_source` unescapes exactly when one of the two-character
markers `\n`, `\t`, `\u` occurs; a marker-free string is only line-ending
normalized (`\r\n` and lone `\r` become `\n`); a marker-free string
without carriage returns passes through unchanged. -/
theorem c8_normalize_no_marker_passthrough (s : String) :
    (containsEscapeMarker s = false → normalize_source s = lfNormalize s) ∧
    (containsEscapeMarker s = false → '\x0d' ∉ s.data → normalize_source s = s) ∧
    (containsEscapeMarker s = true → s ≠ "" →
      normalize_source s = lfNormalize (unescapeOrFallback s)) := by
  refine ⟨fun hm => ?_, fun hm hr => ?_, fun hm hne => ?_⟩
  · by_cases hs : s = ""
    · subst hs; rfl
    · simp only [normalize_source, if_neg hs, hm]
      simp
  · by_cases hs : s = ""
    · subst hs; rfl
    · simp only [normalize_source, if_neg hs, hm]
      simp only [Bool.false_eq_true, if_false]
      show lfNormalize s = s
      unfold lfNormalize
      rw [rep2_id _ _ _ _ hr, rep1_id _ _ _ hr]
  · simp only [normalize_source, if_neg hne, hm, if_true]

/-- Witness for C8: a CRLF string without markers is only line-ending
normalized; a string with the `\n` marker takes the unescape branch. -/
theorem c8_normalize_no_marker_passthrough_witness :
    (containsEscapeMarker "a\x0d\nb" = false ∧
      normalize_source "a\x0d\nb" = lfNormalize "a\x0d\nb") ∧
    (containsEscapeMarker "plot(close)" = false ∧ normalize_source "plot(close)" = "plot(close)") ∧
    (containsEscapeMarker "x\\ny" = true ∧
      normalize_source "x\\ny" = lfNormalize (unescapeOrFallback "x\\ny")) := by
  refine ⟨⟨by decide, (c8_normalize_no_marker_passthrough _).1 (by decide)⟩,
          ⟨by decide, (c8_normalize_no_marker_passthrough "plot(close)").2.1 (by decide) (by decide)⟩,
          ⟨by decide, (c8_normalize_no_marker_passthrough _).2.2 (by decide) (by decide)⟩⟩

theorem attemptStep_empty (fingerprint : String → String) (url : String)
    (ae : AttemptEnv) (reg : Registry) (res : ExtractResult)
    (h : ae.capture = "") :
    attemptStep fingerprint url ae reg res = .cont reg res .emptyCapture := by
  simp [attemptStep, h]

theorem attemptStep_snippet_stale (fingerprint : String → String) (url : String)
    (ae : AttemptEnv) (reg : Registry) (res : ExtractResult)
    (hc : ae.capture ≠ "")
    (hm : snippetMatches ae.visible ae.capture = false) :
    attemptStep fingerprint url ae reg res =
      .cont reg { res with
        source_origin := some "clipboard",
        source_raw := some ae.capture,
        error := some "stale_clipboard" } (.staleSnippet ae.capture) := by
  simp [attemptStep, hc, hm]

theorem extractLoop_trace_le (fingerprint : String → String) (url : String)
    (env : ExtractEnv) (reg₀ : Registry) (res₀ : ExtractResult) :
    (extractLoop fingerprint url env reg₀ res₀).trace.length ≤ 3 := by
  unfold extractLoop
  split
  · simp
  · split
    · simp
    · split
      · simp
      · simp

/-- C3: when navigation succeeds, the page classifies as open and every
capture attempt (including the recovery positional capture) returns empty
text, `extract_pine_source` terminates with error
`clipboard_extraction_failed` after exactly 3 capture attempts; and for
every environment whatsoever the capture loop runs at most 3 attempts. -/
theorem c3_bounded_attempts (fingerprint : String → String) (env : ExtractEnv)
    (url : String) (reg₀ : Registry) (status : Nat) :
    (env.navTimeout = false → env.navResponse = some status → status < 400 →
      (classifyScriptType env.pageText).isOpenSource = true →
      env.att1.capture = "" → env.att2.capture = "" → env.att3.capture = "" →
      env.att3.recoveryCapture = "" →
      (extractPineSource fingerprint env url reg₀).result.error =
        some "clipboard_extraction_failed" ∧
      (extractPineSource fingerprint env url reg₀).trace.length = 3) ∧
    (extractPineSource fingerprint env url reg₀).trace.length ≤ 3 := by
  constructor
  · intro hnt hnr hst hopen h1 h2 h3 hrc
    have e1 := attemptStep_empty fingerprint url env.att1 reg₀
      { url := url, script_id := extract_script_id url } h1
    simp only [extractPineSource, hnt, hnr, Bool.false_eq_true, if_false]
    rw [if_neg (by omega)]
    rw [if_neg (by simp [hopen])]
    have e2 := attemptStep_empty fingerprint url env.att2 reg₀
      { url := url, script_id := extract_script_id url } h2
    have e3 := attemptStep_empty fingerprint url env.att3 reg₀
      { url := url, script_id := extract_script_id url } h3
    simp only [extractLoop, e1, e2, e3]
    simp [hrc]
  · simp only [extractPineSource]
    split
    · simp
    · split
      · simp
      · split
        · simp
        · split
          · simp
          · simpa using extractLoop_trace_le fingerprint url env reg₀ _

/-- Witness for C3: a concrete environment whose three capture attempts
all return empty text. -/
theorem c3_bounded_attempts_witness :
    (extractPineSource (fun s => s)
      { navTimeout := false, navResponse := some 200,
        pageText := "Open-source script",
        att1 := ⟨"", "", ""⟩, att2 := ⟨"", "", ""⟩, att3 := ⟨"", "", ""⟩,
        positionalClick := false } "https://example.test/script/abc/" []).result.error =
      some "clipboard_extraction_failed" ∧
    (extractPineSource (fun s => s)
      { navTimeout := false, navResponse := some 200,
        pageText := "Open-source script",
        att1 := ⟨"", "", ""⟩, att2 := ⟨"", "", ""⟩, att3 := ⟨"", "", ""⟩,
        positionalClick := false } "https://example.test/script/abc/" []).trace.length = 3 :=
  (c3_bounded_attempts (fun s => s) _ _ [] 200).1 rfl rfl (by omega) (by decide)
    rfl rfl rfl rfl

/-- C5: a page whose text carries both an open-source marker and an
`invite-only` marker classifies as `invite-only`: the result is marked
protected, the error is `invite-only`, and no capture attempt runs. -/
theorem c5_invite_only_precedence (fingerprint : String → String) (env : ExtractEnv)
    (url : String) (reg₀ : Registry) (status : Nat)
    (hnt : env.navTimeout = false) (hnr : env.navResponse = some status)
    (hst : status < 400)
    (hopen : strContains (strUpper env.pageText) "OPEN-SOURCE" = true)
    (hinv : strContains (strLower env.pageText) "invite-only" = true) :
    (extractPineSource fingerprint env url reg₀).result.error = some "invite-only" ∧
    (extractPineSource fingerprint env url reg₀).result.is_protected = true ∧
    (extractPineSource fingerprint env url reg₀).trace = [] := by
  simp only [extractPineSource, hnt, Bool.false_eq_true, if_false, hnr]
  rw [if_neg (by omega)]
  rw [if_pos (by simp [classifyScriptType, hinv])]
  simp [classifyScriptType, hinv]

/-- Witness for C5: a page text containing both markers. -/
theorem c5_invite_only_precedence_witness :
    (extractPineSource (fun s => s)
      { navTimeout := false, navResponse := some 200,
        pageText := "Open-source script invite-only",
        att1 := ⟨"x", "", ""⟩, att2 := ⟨"x", "", ""⟩, att3 := ⟨"x", "", ""⟩,
        positionalClick := false } "u" []).result.error = some "invite-only" ∧
    (extractPineSource (fun s => s)
      { navTimeout := false, navResponse := some 200,
        pageText := "Open-source script invite-only",
        att1 := ⟨"x", "", ""⟩, att2 := ⟨"x", "", ""⟩, att3 := ⟨"x", "", ""⟩,
        positionalClick := false } "u" []).result.is_protected = true :=
  ⟨(c5_invite_only_precedence (fun s => s) _ "u" [] 200 rfl rfl (by omega)
      (by decide) (by decide)).1,
   (c5_invite_only_precedence (fun s => s) _ "u" [] 200 rfl rfl (by omega)
      (by decide) (by decide)).2.1⟩

/-- C7: a navigation failure (timeout, missing response, or HTTP status
at least 400) terminates `extract_pine_source` immediately with the
corresponding error, zero capture attempts, a single navigation, and an
error class distinct from extraction failure. -/
theorem c7_navigation_failure_immediate (fingerprint : String → String)
    (env : ExtractEnv) (url : String) (reg₀ : Registry) (status : Nat) :
    (env.navTimeout = true →
      (extractPineSource fingerprint env url reg₀).result.error = some "Timeout" ∧
      (extractPineSource fingerprint env url reg₀).trace = [] ∧
      (extractPineSource fingerprint env url reg₀).navCount = 1) ∧
    (env.navTimeout = false → env.navResponse = none →
      (extractPineSource fingerprint env url reg₀).result.error = some "HTTP No response" ∧
      (extractPineSource fingerprint env url reg₀).trace = [] ∧
      (extractPineSource fingerprint env url reg₀).navCount = 1) ∧
    (env.navTimeout = false → env.navResponse = some status → 400 ≤ status →
      (extractPineSource fingerprint env url reg₀).result.error =
        some ("HTTP " ++ toString status) ∧
      (extractPineSource fingerprint env url reg₀).trace = [] ∧
      (extractPineSource fingerprint env url reg₀).navCount = 1 ∧
      (extractPineSource fingerprint env url reg₀).result.error ≠
        some "clipboard_extraction_failed") := by
  refine ⟨fun ht => ?_, fun hnt hnr => ?_, fun hnt hnr hge => ?_⟩
  · simp [extractPineSource, ht]
  · simp [extractPineSource, hnt, hnr]
  · simp only [extractPineSource, hnt, Bool.false_eq_true, if_false, hnr]
    rw [if_pos hge]
    refine ⟨rfl, rfl, rfl, ?_⟩
    intro h
    have h2 : "HTTP " ++ toString status = "clipboard_extraction_failed" :=
      Option.some.inj h
    have h3 : ("HTTP " ++ toString status).data = "clipboard_extraction_failed".data := by
      rw [h2]
    rw [String.data_append] at h3
    simp at h3

/-- Witness for C7: an HTTP 404 response. -/
theorem c7_navigation_failure_immediate_witness :
    (extractPineSource (fun s => s)
      { navTimeout := false, navResponse := some 404, pageText := "",
        att1 := ⟨"x", "", ""⟩, att2 := ⟨"x", "", ""⟩, att3 := ⟨"x", "", ""⟩,
        positionalClick := false } "u" []).result.error = some "HTTP 404" ∧
    (extractPineSource (fun s => s)
      { navTimeout := false, navResponse := some 404, pageText := "",
        att1 := ⟨"x", "", ""⟩, att2 := ⟨"x", "", ""⟩, att3 := ⟨"x", "", ""⟩,
        positionalClick := false } "u" []).trace = [] :=
  ⟨((c7_navigation_failure_immediate (fun s => s) _ "u" [] 404).2.2 rfl rfl
      (by omega)).1,
   ((c7_navigation_failure_immediate (fun s => s) _ "u" [] 404).2.2 rfl rfl
      (by omega)).2.1⟩

/-- C6 (code bug): the capture `//@version=5\nindicator("X")\nplot(close)`
is accepted on attempt 1 and its normalized text (containing the
`//@version=` marker) becomes `source_code`, yet the result's `version`
field is the empty string: `extract_pine_source` computes the
`//@version=(\d+)` match but never stores it.  The claim (and the spec's
end-to-end scenario) require version tag `"5"` here. -/
theorem c6_version_tag_not_extracted (fingerprint : String → String) :
    (extractPineSource fingerprint c6Env "https://example.test/script/abc/" []).result.version
        = "" ∧
    (extractPineSource fingerprint c6Env "https://example.test/script/abc/" []).result.source_code
        = c6Text ∧
    strContains (extractPineSource fingerprint c6Env
        "https://example.test/script/abc/" []).result.source_code "//@version=5" = true ∧
    (extractPineSource fingerprint c6Env "https://example.test/script/abc/" []).result.error
        = none ∧
    (extractPineSource fingerprint c6Env "https://example.test/script/abc/" []).trace
        = [.accepted c6Text] := by
  refine ⟨rfl, rfl, ?_, rfl, rfl⟩
  have h : (extractPineSource fingerprint c6Env
      "https://example.test/script/abc/" []).result.source_code = c6Text := rfl
  rw [h]
  decide

theorem listHasSubstr_nil (l : List Char) : listHasSubstr [] l = true := by
  cases l <;> simp [listHasSubstr, List.isPrefixOf]

/-- When both strings are non-empty and neither 200-character snippet
occurs in the other text, `_snippet_matches` returns `False`. -/
theorem snippetMatches_false_of_mismatch (a b : String)
    (ha : a ≠ "") (hb : b ≠ "")
    (h1 : listHasSubstr (snippetOf a) b.data = false)
    (h2 : listHasSubstr (snippetOf b) a.data = false) :
    snippetMatches a b = false := by
  have hsnip : snippetOf a ≠ [] := by
    intro he
    rw [he, listHasSubstr_nil] at h1
    exact absurd h1 (by simp)
  simp [snippetMatches, ha, hb, hsnip, h1, h2]

/-- C2: whenever a capture attempt actually executes (the trace has an
`i`-th entry) with non-empty captured text, a non-empty page-visible
rendering, and neither snippet occurring inside the other text, the
attempt's outcome is `staleSnippet` — the attempt sets
`error = 'stale_clipboard'` and falls through to a retry — and in
particular is never `accepted` on that attempt. -/
theorem c2_snippet_mismatch_retries (fingerprint : String → String)
    (env : ExtractEnv) (url : String) (reg₀ : Registry) (i : Nat)
    (o : AttemptOutcome)
    (hget : (extractPineSource fingerprint env url reg₀).trace.get? i = some o)
    (hcap : (attOf env i).capture ≠ "")
    (hvis : (attOf env i).visible ≠ "")
    (hm1 : listHasSubstr (snippetOf (attOf env i).visible) (attOf env i).capture.data = false)
    (hm2 : listHasSubstr (snippetOf (attOf env i).capture) (attOf env i).visible.data = false) :
    o = .staleSnippet (attOf env i).capture ∧ ∀ c, o ≠ .accepted c := by
  have hsm : snippetMatches (attOf env i).visible (attOf env i).capture = false :=
    snippetMatches_false_of_mismatch _ _ hvis hcap hm1 hm2
  by_cases hnt : env.navTimeout = true
  · simp [extractPineSource, hnt] at hget
  · rcases hnr : env.navResponse with _ | status
    · simp [extractPineSource, hnt, hnr] at hget
    · by_cases hge : 400 ≤ status
      · simp [extractPineSource, hnt, hnr, hge] at hget
      · by_cases hop : (classifyScriptType env.pageText).isOpenSource = false
        · simp [extractPineSource, hnt, hnr, hge, hop] at hget
        · have hget2 : (extractLoop fingerprint url env reg₀
              { url := url, script_id := extract_script_id url }).trace.get? i = some o := by
            simpa [extractPineSource, hnt, hnr, hge, hop] using hget
          clear hget
          unfold extractLoop at hget2
          rcases hs1 : attemptStep fingerprint url env.att1 reg₀
              { url := url, script_id := extract_script_id url } with
            ⟨c1, rg1, rs1⟩ | ⟨rg1, rs1, o1⟩
          · simp only [hs1] at hget2
            rcases i with _ | j
            · simp only [attOf] at hcap hsm
              rw [attemptStep_snippet_stale fingerprint url env.att1 reg₀ _ hcap hsm] at hs1
              simp at hs1
            · simp at hget2
          · simp only [hs1] at hget2
            rcases hs2 : attemptStep fingerprint url env.att2 rg1 rs1 with
              ⟨c2, rg2, rs2⟩ | ⟨rg2, rs2, o2⟩
            · simp only [hs2] at hget2
              rcases i with _ | (_ | j)
              · simp only [attOf] at hcap hsm
                rw [attemptStep_snippet_stale fingerprint url env.att1 reg₀ _ hcap hsm] at hs1
                injection hs1 with h₁ h₂ h₃
                subst h₃
                simp at hget2
                exact ⟨hget2.symm ▸ rfl, by subst hget2; intro c; simp⟩
              · simp only [attOf] at hcap hsm
                rw [attemptStep_snippet_stale fingerprint url env.att2 rg1 rs1 hcap hsm] at hs2
                simp at hs2
              · simp at hget2
            · simp only [hs2] at hget2
              rcases hs3 : attemptStep fingerprint url env.att3 rg2 rs2 with
                ⟨c3, rg3, rs3⟩ | ⟨rg3, rs3, o3⟩
              · simp only [hs3] at hget2
                rcases i with _ | (_ | (_ | j))
                · simp only [attOf] at hcap hsm
                  rw [attemptStep_snippet_stale fingerprint url env.att1 reg₀ _ hcap hsm] at hs1
                  injection hs1 with h₁ h₂ h₃
                  subst h₃
                  simp at hget2
                  exact ⟨hget2.symm ▸ rfl, by subst hget2; intro c; simp⟩
                · simp only [attOf] at hcap hsm
                  rw [attemptStep_snippet_stale fingerprint url env.att2 rg1 rs1 hcap hsm] at hs2
                  injection hs2 with h₁ h₂ h₃
                  subst h₃
                  simp at hget2
                  exact ⟨hget2.symm ▸ rfl, by subst hget2; intro c; simp⟩
                · simp only [attOf] at hcap hsm
                  rw [attemptStep_snippet_stale fingerprint url env.att3 rg2 rs2 hcap hsm] at hs3
                  simp at hs3
                · simp at hget2
              · simp only [hs3] at hget2
                rcases i with _ | (_ | (_ | j))
                · simp only [attOf] at hcap hsm
                  rw [attemptStep_snippet_stale fingerprint url env.att1 reg₀ _ hcap hsm] at hs1
                  injection hs1 with h₁ h₂ h₃
                  subst h₃
                  simp at hget2
                  exact ⟨hget2.symm ▸ rfl, by subst hget2; intro c; simp⟩
                · simp only [attOf] at hcap hsm
                  rw [attemptStep_snippet_stale fingerprint url env.att2 rg1 rs1 hcap hsm] at hs2
                  injection hs2 with h₁ h₂ h₃
                  subst h₃
                  simp at hget2
                  exact ⟨hget2.symm ▸ rfl, by subst hget2; intro c; simp⟩
                · simp only [attOf] at hcap hsm
                  rw [attemptStep_snippet_stale fingerprint url env.att3 rg2 rs2 hcap hsm] at hs3
                  injection hs3 with h₁ h₂ h₃
                  subst h₃
                  simp at hget2
                  exact ⟨hget2.symm ▸ rfl, by subst hget2; intro c; simp⟩
                · simp at hget2

/-- Witness for C2: the mismatching first attempt is classified
`staleSnippet` and not accepted. -/
theorem c2_snippet_mismatch_retries_witness :
    AttemptOutcome.staleSnippet "BBBB" =
        .staleSnippet (attOf c2WitnessEnv 0).capture ∧
      ∀ c, AttemptOutcome.staleSnippet "BBBB" ≠ .accepted c :=
  c2_snippet_mismatch_retries (fun s => s) c2WitnessEnv "u" [] 0
    (.staleSnippet "BBBB") rfl (by decide) (by decide) (by decide) (by decide)

set_option maxRecDepth 100000 in
/-- C4 counterexample: for a raw capture beginning with `\n`, the payload
written by the save-plus-verification step is the raw bytes with the
leading newline stripped — not the raw bytes exactly, refuting the claim
as stated. -/
theorem c4_payload_counterexample :
    payloadAfterHeader c4Input ≠ c4Input.raw ∧
    payloadAfterHeader c4Input = "plot(close)" ∧
    c4Input.raw = "\nplot(close)" := by
  refine ⟨by decide, by decide, rfl⟩

/-- C4 (amended): after the save-plus-verification step, the final file is
the preserved header text followed by the raw capture stripped of leading
newline bytes; hence the payload after the header equals the raw bytes
with leading newlines removed, and equals the raw bytes exactly whenever
the capture does not begin with a newline. -/
theorem c4_payload_after_verify (r : SaveInput)
    (hraw : r.raw ≠ "") (hmis : saveClipboard r ≠ r.raw) :
    savePlusVerify r = rewriteHeaderText r ++ dropLeadingLF r.raw ∧
    payloadAfterHeader r = dropLeadingLF r.raw ∧
    (r.raw.data.head? ≠ some '\n' → payloadAfterHeader r = r.raw) := by
  have h1 : savePlusVerify r = rewriteHeaderText r ++ dropLeadingLF r.raw := by
    simp only [savePlusVerify, if_neg hmis]
  have h2 : payloadAfterHeader r = dropLeadingLF r.raw := by
    unfold payloadAfterHeader
    rw [h1, String.data_append, List.drop_left]
  refine ⟨h1, h2, fun hh => ?_⟩
  rw [h2]
  unfold dropLeadingLF
  rcases he : r.raw.data with _ | ⟨c, t⟩
  · rw [List.dropWhile_nil]
    apply String.ext
    rw [he]
  · rw [he] at hh
    simp only [List.head?] at hh
    have hc : ¬ (c = '\n') := fun hcc => hh (by rw [hcc])
    rw [List.dropWhile_cons_of_neg (by simpa using hc)]
    apply String.ext
    rw [he]

set_option maxRecDepth 100000 in
theorem c4_payload_after_verify_witness :
    payloadAfterHeader c4WitnessInput = c4WitnessInput.raw :=
  (c4_payload_after_verify c4WitnessInput (by decide) (by decide)).2.2 (by decide)

set_option maxRecDepth 100000 in
/-- C9 counterexample: the reconstructed index contains the Target's
script identifier (from the filename), so the Target is present in the
Resumability Index, yet the worklist filter — which only tests URL
membership — keeps it, so navigation and capture do run for it. -/
theorem c9_index_skip_counterexample :
    specTargetInIndex (scanExistingScripts c9Scan) c9Target ∧
    c9Target ∈ downloadWorklist [c9Target] (scanExistingScripts c9Scan) := by
  constructor
  · exact Or.inr (by decide)
  · decide

/-- C9 (amended): with resume enabled, a Target whose *URL* is in the
reconstructed index is excluded from the worklist, and no worklist entry
(hence no per-target navigation or capture) carries its URL; presence via
the script identifier alone does not cause a skip. -/
theorem c9_url_membership_skip (scripts : List Target) (completed : List String)
    (t : Target) (hmem : t.url ∈ completed) :
    t ∉ downloadWorklist scripts completed ∧
    ∀ s ∈ downloadWorklist scripts completed, s.url ≠ t.url := by
  constructor
  · intro hin
    rcases List.mem_filter.mp hin with ⟨_, hf⟩
    simp at hf
    exact hf hmem
  · intro u hu he
    rcases List.mem_filter.mp hu with ⟨_, hf⟩
    simp at hf
    exact hf (he ▸ hmem)

/-- Witness for C9's amended claim. -/
theorem c9_url_membership_skip_witness :
    ({ url := "u1", title := "" } : Target) ∉
      downloadWorklist [{ url := "u1", title := "" }] ["u1"] :=
  (c9_url_membership_skip [{ url := "u1", title := "" }] ["u1"]
    { url := "u1", title := "" } (by decide)).1

set_option maxRecDepth 100000 in
/-- C1 (code bug), for an arbitrary fingerprint function: target A's
capture `c1Text` is accepted and persisted; target B's three attempts all
return the same `c1Text` and each is classified `staleDup` against A's
registry entry — yet because `extract_pine_source` records
`source_origin`/`source_raw` before validation and never clears them, and
`download_all` persists on exactly those fields, target B is *also*
persisted with the identical (hence identically-fingerprinted) clipboard
text, violating the claimed registry invariant. -/
theorem c1_duplicate_fingerprint_persisted (fingerprint : String → String) :
    downloadBatchPersisted fingerprint c1Batch [] =
      [(c1UrlA, c1Text), (c1UrlB, c1Text)] ∧
    c1UrlA ≠ c1UrlB ∧
    (extractPineSource fingerprint c1EnvB c1UrlB
        [(fingerprint c1Text, c1UrlA)]).trace =
      [.staleDup c1Text c1UrlA, .staleDup c1Text c1UrlA, .staleDup c1Text c1UrlA] := by
  have hlook : regLookup [(fingerprint c1Text, c1UrlA)] (fingerprint c1Text) =
      some c1UrlA := by
    simp [regLookup]
  have hstep : ∀ res : ExtractResult,
      attemptStep fingerprint c1UrlB ⟨c1Text, "", ""⟩
        [(fingerprint c1Text, c1UrlA)] res =
      .cont [(fingerprint c1Text, c1UrlA)]
        { res with
          source_origin := some "clipboard",
          source_raw := some c1Text,
          error := some "stale_clipboard" } (.staleDup c1Text c1UrlA) := by
    intro res
    simp only [attemptStep]
    rw [if_neg (by decide : ¬ (c1Text = ""))]
    rw [if_neg (by decide : ¬ (snippetMatches "" c1Text = false))]
    simp only [hlook]
    rw [if_pos (by decide : c1UrlA ≠ "" ∧ c1UrlA ≠ c1UrlB)]
  have hExtB : extractPineSource fingerprint c1EnvB c1UrlB
      [(fingerprint c1Text, c1UrlA)] =
      ⟨{ url := c1UrlB, script_id := "bbb222", source_code := "", version := "",
         is_strategy := false, is_library := false, is_protected := false,
         source_origin := some "clipboard", source_raw := some c1Text,
         error := some "clipboard_extraction_failed" },
       [(fingerprint c1Text, c1UrlA)],
       [.staleDup c1Text c1UrlA, .staleDup c1Text c1UrlA, .staleDup c1Text c1UrlA],
       1⟩ := by
    simp only [extractPineSource, extractLoop, c1EnvB, hstep]
    rfl
  have hA : runTargetAttempts fingerprint c1UrlA [c1EnvA] [] =
      (some (c1UrlA, c1Text), [(fingerprint c1Text, c1UrlA)]) := rfl
  have hB : runTargetAttempts fingerprint c1UrlB [c1EnvB]
      [(fingerprint c1Text, c1UrlA)] =
      (some (c1UrlB, c1Text), [(fingerprint c1Text, c1UrlA)]) := by
    simp only [runTargetAttempts, hExtB]
    rw [if_pos (by constructor <;> decide)]
    rfl
  refine ⟨?_, by decide, ?_⟩
  · simp only [c1Batch, downloadBatchPersisted, hA, hB]
  · rw [hExtB]

/-- Witness for C1 at a concrete fingerprint function: both targets are
persisted with the identical clipboard text. -/
theorem c1_duplicate_fingerprint_persisted_witness :
    downloadBatchPersisted (fun s => s) c1Batch [] =
      [(c1UrlA, c1Text), (c1UrlB, c1Text)] :=
  (c1_duplicate_fingerprint_persisted (fun s => s)).1

/-- Witness for C6 at a concrete fingerprint function: the accepted
version-5 capture yields an empty version tag. -/
theorem c6_version_tag_not_extracted_witness :
    (extractPineSource (fun s => s) c6Env
        "https://example.test/script/abc/" []).result.version = "" :=
  (c6_version_tag_not_extracted (fun s => s)).1


end TVDL

